import Mathlib

/-!
Verification of the distributed sliding-window rate limiter
(`src/app/rate_limiter.py`).

The core of the program is a Lua script (`SLIDING_WINDOW_SCRIPT`) executed
atomically by Redis against a single sorted-set key, plus a thin Python
wrapper (`DistributedRateLimiter`).  We embed the state stored at a key
(a Redis sorted set of scored members, plus the expiry set by `PEXPIRE`),
the script itself, and the two wrapper methods `allow_request` and
`get_current_usage`, and prove or refute the specified properties.
-/

namespace RateLimiter

/-- One member of a Redis sorted set attached to a rate-limit key.
In the source both the member value and the score are the millisecond
timestamp `now` (the script runs `ZADD key now now`; Redis stores the
member as the decimal string of `now`, which is in bijection with the
integer, so we keep it as an integer). -/
structure Entry where
  member : Int
  score : Int
deriving DecidableEq, Repr

/-- The state Redis holds at one rate-limit key: the sorted-set entries
and the time-to-live most recently installed by `PEXPIRE` (`none` if the
key has no expiry). -/
structure KeyState where
  entries : List Entry
  expiry : Option Int
deriving DecidableEq, Repr

/-- A key that has never been touched: empty set, no expiry. -/
def KeyState.empty : KeyState := { entries := [], expiry := none }

/-- `ZREMRANGEBYSCORE key -inf x`: Redis removes every entry whose score
lies in the closed range `[-inf, x]` — both bounds are inclusive — so the
surviving entries are exactly those with score strictly greater than `x`. -/
def zremrangebyscoreLe (l : List Entry) (x : Int) : List Entry :=
  l.filter (fun e => decide (x < e.score))

/-- `ZCARD key`: the number of members in the sorted set. -/
def zcard (l : List Entry) : Nat := l.length

/-- `ZADD key score member`: upsert by member value.  If an entry with
this member already exists its score is updated in place; otherwise a new
entry is added.  The set's cardinality grows only in the second case. -/
def zadd (l : List Entry) (s m : Int) : List Entry :=
  if l.any (fun e => e.member == m) then
    l.map (fun e => if e.member == m then { member := m, score := s } else e)
  else
    l ++ [{ member := m, score := s }]

/-- `PEXPIRE key ttl`: with a positive ttl Redis installs the expiry on
the key; given a non-positive ttl Redis deletes the key outright, which
leaves it indistinguishable from a key that was never written (empty set,
no expiry). -/
def pexpire (st : KeyState) (ttl : Int) : KeyState :=
  if 0 < ttl then { st with expiry := some ttl } else KeyState.empty

/-- The Lua script `SLIDING_WINDOW_SCRIPT`, executed atomically by Redis:

    redis.call('ZREMRANGEBYSCORE', key, '-inf', now - window)
    local count = redis.call('ZCARD', key)
    if count < limit then
        redis.call('ZADD', key, now, now)
        redis.call('PEXPIRE', key, window * 2)
        return 1
    else
        return 0
    end

Returns the decision (`1` / `0` becomes `true` / `false` through the
Python wrapper's `bool(result)`) together with the key's new state. -/
def slidingWindowScript (st : KeyState) (now window limit : Int) :
    Bool × KeyState :=
  let l := zremrangebyscoreLe st.entries (now - window)
  let count := zcard l
  if (count : Int) < limit then
    (true, pexpire { entries := zadd l now now, expiry := st.expiry } (window * 2))
  else
    (false, { entries := l, expiry := st.expiry })

/-- The whole Redis store: one `KeyState` per string key. -/
def Store := String → KeyState

/-- A store in which no key has ever been written. -/
def Store.empty : Store := fun _ => KeyState.empty

/-- The composite key built by `allow_request` and `get_current_usage`:
`f"rate:{client_id}:{endpoint}"`. -/
def composeKey (client_id endpoint : String) : String :=
  "rate:" ++ client_id ++ ":" ++ endpoint

/-- `DistributedRateLimiter.allow_request`: builds the composite key,
takes the current timestamp (passed here as the argument `now_ms`, since
the embedding is deterministic), runs the atomic script, and returns
`bool(result)` together with the updated store.  The Python method
performs no validation of `limit` or `window_ms`. -/
def allow_request (store : Store) (client_id endpoint : String)
    (limit window_ms now_ms : Int) : Bool × Store :=
  let key := composeKey client_id endpoint
  let r := slidingWindowScript (store key) now_ms window_ms limit
  (r.1, fun k => if k = key then r.2 else store k)

/-- `DistributedRateLimiter.get_current_usage`: `ZCARD` on the composite
key, with no trimming and no mutation. -/
def get_current_usage (store : Store) (client_id endpoint : String) : Nat :=
  zcard (store (composeKey client_id endpoint)).entries

/-- A batch of calls against one key, each call given as
`(now, window, limit)`, executed one after another.  Because Redis runs
each script invocation as one indivisible unit, any set of concurrent
calls for the key is observationally some serialization of this form;
this is the most favorable model for the atomicity claim. -/
def runSerialized (st : KeyState) (calls : List (Int × Int × Int)) :
    List Bool × KeyState :=
  match calls with
  | [] => ([], st)
  | (now, window, limit) :: rest =>
      let r := slidingWindowScript st now window limit
      let rs := runSerialized r.2 rest
      (r.1 :: rs.1, rs.2)

/-- Membership in the trimmed list: exactly the original entries whose
score is strictly above the cutoff. -/
lemma mem_zremrangebyscoreLe (l : List Entry) (x : Int) (e : Entry) :
    e ∈ zremrangebyscoreLe l x ↔ e ∈ l ∧ x < e.score := by
  simp [zremrangebyscoreLe, List.mem_filter]

/-- When no existing entry carries the member, `ZADD` appends a fresh
entry. -/
lemma zadd_of_not_mem (l : List Entry) (s m : Int)
    (h : ∀ e ∈ l, e.member ≠ m) :
    zadd l s m = l ++ [{ member := m, score := s }] := by
  unfold zadd
  rw [if_neg]
  simp only [List.any_eq_true, beq_iff_eq, not_exists, not_and]
  exact h

/-- The script on the denied branch: result `false`, entries trimmed,
expiry untouched. -/
lemma script_denied_eq (st : KeyState) (now window limit : Int)
    (hc : ¬ ((zcard (zremrangebyscoreLe st.entries (now - window)) : Int) < limit)) :
    slidingWindowScript st now window limit
      = (false,
         { entries := zremrangebyscoreLe st.entries (now - window),
           expiry := st.expiry }) := by
  simp [slidingWindowScript, hc]

/-- The script on the allowed branch: result `true`, `ZADD` of `(now, now)`
onto the trimmed entries, then `PEXPIRE` with ttl `window * 2`. -/
lemma script_allowed_eq (st : KeyState) (now window limit : Int)
    (hc : (zcard (zremrangebyscoreLe st.entries (now - window)) : Int) < limit) :
    slidingWindowScript st now window limit
      = (true,
         pexpire
           { entries := zadd (zremrangebyscoreLe st.entries (now - window)) now now,
             expiry := st.expiry }
           (window * 2)) := by
  simp [slidingWindowScript, hc]

/-- `PEXPIRE` with a positive ttl only installs the expiry. -/
lemma pexpire_of_pos (st : KeyState) (ttl : Int) (h : 0 < ttl) :
    pexpire st ttl = { st with expiry := some ttl } := by
  simp [pexpire, h]

/-- C1 (amended): the call returns `true` iff the count of entries
surviving the trim is strictly below `limit`; when it returns `true` the
key's expiry is set to `2 * window_ms` and the pair `(score now, member
now)` is upserted — a genuinely new entry, growing the set by one, exactly
when no surviving entry already has member `now`. -/
theorem C1_allow_contract (st : KeyState) (now window limit : Int)
    (_hL : 0 < limit) (_hW : 0 < window) :
    ((slidingWindowScript st now window limit).1 = true ↔
      ((zcard (zremrangebyscoreLe st.entries (now - window)) : Int) < limit)) ∧
    ((slidingWindowScript st now window limit).1 = true →
      (slidingWindowScript st now window limit).2.expiry = some (window * 2) ∧
      (slidingWindowScript st now window limit).2.entries
        = zadd (zremrangebyscoreLe st.entries (now - window)) now now ∧
      ((∀ e ∈ zremrangebyscoreLe st.entries (now - window), e.member ≠ now) →
        (slidingWindowScript st now window limit).2.entries.length
          = (zremrangebyscoreLe st.entries (now - window)).length + 1)) := by
  by_cases hc : ((zcard (zremrangebyscoreLe st.entries (now - window)) : Int) < limit)
  · rw [script_allowed_eq st now window limit hc,
        pexpire_of_pos _ _ (by omega : (0 : Int) < window * 2)]
    refine ⟨by simp [hc], fun _ => ⟨rfl, rfl, fun hmem => ?_⟩⟩
    rw [zadd_of_not_mem _ _ _ hmem]
    simp
  · rw [script_denied_eq st now window limit hc]
    exact ⟨by simp [hc], by simp⟩

/-- Witness for C1 at a concrete input: from the empty key with
`limit = 1`, `window = 1000`, `now = 0`. -/
theorem C1_allow_contract_witness :
    (0 : Int) < 1 ∧ (0 : Int) < 1000 ∧
    ((slidingWindowScript KeyState.empty 0 1000 1).1 = true ↔
      ((zcard (zremrangebyscoreLe KeyState.empty.entries (0 - 1000)) : Int) < 1)) :=
  ⟨by decide, by decide,
   (C1_allow_contract KeyState.empty 0 1000 1 (by decide) (by decide)).1⟩

/-- C1 counterexample: from a state already holding the entry
`(member 100, score 100)`, a call with `now = 100`, `window = 1000`,
`limit = 2` returns `true` yet inserts no new entry — the set still has
exactly one entry, because `ZADD` upserted the existing member `100`.
The claim's "exactly one new entry ... is inserted" fails here. -/
theorem C1_counterexample_no_insert :
    (slidingWindowScript
        { entries := [{ member := 100, score := 100 }], expiry := some 2000 }
        100 1000 2).1 = true ∧
    (slidingWindowScript
        { entries := [{ member := 100, score := 100 }], expiry := some 2000 }
        100 1000 2).2.entries.length = 1 := by
  decide

/-- C5 (amended): the trim removes exactly the entries with score in the
closed interval `[-inf, now - window]`: membership in the trimmed list is
equivalent to having score strictly greater than `now - window`, and an
entry whose score equals `now - window` exactly is removed, not kept. -/
theorem C5_trim_closed_interval (entriesPre : List Entry) (now window : Int) :
    (∀ e, e ∈ zremrangebyscoreLe entriesPre (now - window) ↔
        e ∈ entriesPre ∧ now - window < e.score) ∧
    (∀ e ∈ entriesPre, e.score = now - window →
        e ∉ zremrangebyscoreLe entriesPre (now - window)) := by
  refine ⟨fun e => mem_zremrangebyscoreLe _ _ _, ?_⟩
  intro e he hs hmem
  have h2 := ((mem_zremrangebyscoreLe _ _ _).mp hmem).2
  omega

/-- Witness for C5 at a concrete entry and cutoff. -/
theorem C5_trim_closed_interval_witness :
    ({ member := 5, score := 5 } : Entry) ∈
        zremrangebyscoreLe [{ member := 5, score := 5 }] (1000 - 1000) ↔
      ({ member := 5, score := 5 } : Entry) ∈
          [({ member := 5, score := 5 } : Entry)] ∧
        (1000 - 1000 : Int) < ({ member := 5, score := 5 } : Entry).score :=
  (C5_trim_closed_interval [{ member := 5, score := 5 }] 1000 1000).1
    { member := 5, score := 5 }

/-- C5 counterexample: an entry with score exactly `now - window`
(score `0`, `now = 1000`, `window = 1000`) does NOT survive the trim —
`ZREMRANGEBYSCORE -inf (now - window)` is inclusive — so a call with
`limit = 1` is admitted where the claim (boundary entry survives and
counts) requires denial. -/
theorem C5_counterexample_boundary_removed :
    zremrangebyscoreLe [{ member := 0, score := 0 }] (1000 - 1000) = [] ∧
    (slidingWindowScript
        { entries := [{ member := 0, score := 0 }], expiry := some 2000 }
        1000 1000 1).1 = true := by
  decide

/-- C2: three calls at the same millisecond with `limit = 2` from an
empty key are all admitted: after the first call the key holds the single
entry `(member 0, score 0)`, and each later call sees `count = 1 < 2`
because its `ZADD` collapsed onto the same member.  The claim requires
the third call (the `(limit+1)`-th within the same window) to be denied;
the code admits it. -/
theorem C2_third_call_admitted :
    (runSerialized KeyState.empty
        [(0, 1000, 2), (0, 1000, 2), (0, 1000, 2)]).1
      = [true, true, true] := by
  decide

/-- C3: even granting full backend atomicity (the calls execute as a
serialization of indivisible script runs), 3 simultaneous calls at the
same millisecond with `limit = 2` produce 3 admissions, not exactly 2:
the member collision makes every call after the first see `count = 1`. -/
theorem C3_all_three_admitted :
    ((runSerialized KeyState.empty
        [(0, 1000, 2), (0, 1000, 2), (0, 1000, 2)]).1.count true) = 3 := by
  decide

/-- C4: two distinct admitted requests at the same millisecond are
collapsed into one stored entry: both calls return `true`, yet the key
holds a single entry afterwards, because `ZADD key now now` upserts by
member and the member of both requests is `now = 100`. -/
theorem C4_members_collide :
    (slidingWindowScript KeyState.empty 100 1000 3).1 = true ∧
    (slidingWindowScript
        (slidingWindowScript KeyState.empty 100 1000 3).2 100 1000 3).1
      = true ∧
    (slidingWindowScript
        (slidingWindowScript KeyState.empty 100 1000 3).2 100 1000 3).2.entries.length
      = 1 := by
  decide

/-- C7: `allow_request` performs no input validation: with `limit = 0` it
returns `False` (no `InvalidConfiguration` error exists anywhere in the
code) and its script still executes against the backend — from a store
whose key holds a stale entry, the `limit = 0` call trims that entry out,
mutating the store's state — and with `window_ms = 0` the call ADMITS the
request instead of failing (it returns `true`; its `PEXPIRE key 0` then
deletes the freshly written key).  Both refute "fails with
InvalidConfiguration before any operation is sent to the backend". -/
theorem C7_no_validation_performed :
    (allow_request Store.empty "a" "b" 0 1000 50).1 = false ∧
    (allow_request
        (fun _ => { entries := [{ member := -5000, score := -5000 }],
                    expiry := none })
        "a" "b" 0 1000 50).2 (composeKey "a" "b")
      ≠ { entries := [{ member := -5000, score := -5000 }], expiry := none } ∧
    (allow_request Store.empty "a" "b" 5 0 50).1 = true := by
  decide

/-- C8 (amended): calls for one pair leave the usage count and the
admission decision of another pair untouched PROVIDED their composite
keys `rate:identity:resource` differ; the keys of distinct pairs can
coincide when the strings contain a colon. -/
theorem C8_distinct_keys_independent (store : Store)
    (id1 res1 id2 res2 : String)
    (limit window now limit2 window2 now2 : Int)
    (h : composeKey id1 res1 ≠ composeKey id2 res2) :
    get_current_usage (allow_request store id1 res1 limit window now).2 id2 res2
      = get_current_usage store id2 res2 ∧
    (allow_request (allow_request store id1 res1 limit window now).2
        id2 res2 limit2 window2 now2).1
      = (allow_request store id2 res2 limit2 window2 now2).1 := by
  have hread : (allow_request store id1 res1 limit window now).2
      (composeKey id2 res2) = store (composeKey id2 res2) := by
    simp only [allow_request]
    rw [if_neg (fun he => h he.symm)]
  constructor
  · simp only [get_current_usage, hread]
  · simp only [allow_request]
    rw [if_neg (fun he => h he.symm)]

/-- Witness for C8 at two concrete pairs with distinct keys. -/
theorem C8_distinct_keys_independent_witness :
    composeKey "a" "b" ≠ composeKey "c" "d" ∧
    get_current_usage (allow_request Store.empty "a" "b" 1 1000 0).2 "c" "d"
      = get_current_usage Store.empty "c" "d" :=
  ⟨by decide,
   (C8_distinct_keys_independent Store.empty "a" "b" "c" "d"
      1 1000 0 1 1000 0 (by decide)).1⟩

/-- C8 counterexample: the distinct pairs `("a", "b:c")` and
`("a:b", "c")` serialize to the same composite key `rate:a:b:c`; an
admitted call for the first pair raises the second pair's usage count
from 0 to 1 and flips its next admission decision (with `limit = 1`)
from allowed to denied. -/
theorem C8_counterexample_key_collision :
    composeKey "a" "b:c" = composeKey "a:b" "c" ∧
    (("a", "b:c") : String × String) ≠ ("a:b", "c") ∧
    get_current_usage Store.empty "a:b" "c" = 0 ∧
    (allow_request Store.empty "a" "b:c" 1 1000 0).1 = true ∧
    get_current_usage (allow_request Store.empty "a" "b:c" 1 1000 0).2
        "a:b" "c" = 1 ∧
    (allow_request Store.empty "a:b" "c" 1 1000 0).1 = true ∧
    (allow_request (allow_request Store.empty "a" "b:c" 1 1000 0).2
        "a:b" "c" 1 1000 0).1 = false := by
  decide

/-- C9: two admitted calls in the same millisecond (`m = 2 ≤ limit = 3`)
leave `get_current_usage` at 1, not 2: the two admissions collapsed into
one stored member, so the usage report undercounts. -/
theorem C9_usage_undercounts :
    (allow_request Store.empty "c" "e" 3 1000 0).1 = true ∧
    (allow_request (allow_request Store.empty "c" "e" 3 1000 0).2
        "c" "e" 3 1000 0).1 = true ∧
    get_current_usage
        (allow_request (allow_request Store.empty "c" "e" 3 1000 0).2
            "c" "e" 3 1000 0).2 "c" "e" = 1 := by
  decide

/-- C10: with a non-positive `limit` the call returns `false` — the
count, a natural number, can never be strictly below a non-positive
limit — and no new entry is inserted for the key (every entry stored
afterwards was already stored before); no validation error interrupts
the call, which executes the script as usual. -/
theorem C10_nonpositive_limit_always_denies (store : Store)
    (client_id endpoint : String) (window now : Int) (limit : Int)
    (h : limit ≤ 0) :
    (allow_request store client_id endpoint limit window now).1 = false ∧
    (∀ e ∈ ((allow_request store client_id endpoint limit window now).2
        (composeKey client_id endpoint)).entries,
      e ∈ (store (composeKey client_id endpoint)).entries) := by
  have hc : ¬ ((zcard (zremrangebyscoreLe
      (store (composeKey client_id endpoint)).entries (now - window)) : Int)
        < limit) := by
    have h0 : (0 : Int) ≤ (zcard (zremrangebyscoreLe
        (store (composeKey client_id endpoint)).entries (now - window)) : Int) :=
      Int.ofNat_nonneg _
    omega
  have hupd : (allow_request store client_id endpoint limit window now).2
      (composeKey client_id endpoint)
      = { entries := zremrangebyscoreLe
            (store (composeKey client_id endpoint)).entries (now - window),
          expiry := (store (composeKey client_id endpoint)).expiry } := by
    simp only [allow_request]
    rw [script_denied_eq _ _ _ _ hc]
    simp
  constructor
  · show (allow_request store client_id endpoint limit window now).1 = false
    simp only [allow_request]
    rw [script_denied_eq _ _ _ _ hc]
  · intro e he
    rw [hupd] at he
    exact ((mem_zremrangebyscoreLe _ _ _).mp he).1

/-- Witness for C10 at `limit = 0` on the empty store. -/
theorem C10_nonpositive_limit_always_denies_witness :
    (0 : Int) ≤ 0 ∧
    (allow_request Store.empty "a" "b" 0 1000 7).1 = false :=
  ⟨by decide,
   (C10_nonpositive_limit_always_denies Store.empty "a" "b" 1000 7 0
      (by decide)).1⟩

end RateLimiter
